import Mathlib

/-!
Shallow embedding of the alert classification and aggregation engine of
`dependabot_slack.py` and proofs of the specification claims about it.

Modelling conventions:
* A raw dependabot alert record is flattened into the fields the engine
  reads: `state`, `security_advisory.severity` (as `severity`),
  `dependency.package.ecosystem` (as `ecosystem`), and the three
  timestamp fields.
* `datetime.strptime` either returns a timestamp or raises `ValueError`;
  a timestamp field is therefore embedded as `Option Int` (seconds since
  an arbitrary epoch): `some t` is a parseable timestamp with value `t`,
  `none` an unparsable one.  Code paths that call `strptime` become
  `Except String` computations that error on `none`.
* `timedelta.days` floors the difference towards negative infinity, which
  is `Int.fdiv` by 86400.
* Python's `round(x, 2)` is embedded over `ℚ` as rounding `x * 100` to an
  integer and dividing by 100 (`pyRound2`).
* Counters are Python ints only ever incremented from a zero template, so
  they are embedded as `Nat`; non-negativity is carried by the type.
-/

namespace Dependabot

/-- One dependabot alert record, flattened to the fields the engine reads. -/
structure Alert where
  state : String
  severity : String
  ecosystem : String
  published_at : Option Int
  fixed_at : Option Int
  dismissed_at : Option Int
deriving DecidableEq, Repr

/-- The per-state counter dictionary `state_template` of `get_state_data`:
severity counters, ecosystem counters, a running total and the
representative date (`none` embeds the initial empty string `""`). -/
structure StateDict where
  Total : Nat
  Crit : Nat
  High : Nat
  Med : Nat
  Low : Nat
  Date : Option Int
  Npm : Nat
  Pip : Nat
  Rubygems : Nat
  Nuget : Nat
  Maven : Nat
  Composer : Nat
  Rust : Nat
  Unknown : Nat
deriving DecidableEq, Repr

/-- The zero-initialised `state_template` dictionary. -/
def state_template : StateDict :=
  { Total := 0, Crit := 0, High := 0, Med := 0, Low := 0, Date := none,
    Npm := 0, Pip := 0, Rubygems := 0, Nuget := 0, Maven := 0,
    Composer := 0, Rust := 0, Unknown := 0 }

/-- The nested `parse_data` helper of `get_state_data`: one classification
pass over a single alert, incrementing `Total`, the matching severity
counter (with the trailing `else` collapsing everything that is not
critical/high/medium into `Low`) and the matching ecosystem counter (with
the trailing `else` collapsing into `Unknown`). -/
def parse_data (item_dict : Alert) (parsed_dict : StateDict) : StateDict :=
  let d0 := { parsed_dict with Total := parsed_dict.Total + 1 }
  let d1 :=
    if item_dict.severity = "critical" then { d0 with Crit := d0.Crit + 1 }
    else if item_dict.severity = "high" then { d0 with High := d0.High + 1 }
    else if item_dict.severity = "medium" then { d0 with Med := d0.Med + 1 }
    else { d0 with Low := d0.Low + 1 }
  if item_dict.ecosystem = "npm" then { d1 with Npm := d1.Npm + 1 }
  else if item_dict.ecosystem = "pip" then { d1 with Pip := d1.Pip + 1 }
  else if item_dict.ecosystem = "rubygems" then { d1 with Rubygems := d1.Rubygems + 1 }
  else if item_dict.ecosystem = "nuget" then { d1 with Nuget := d1.Nuget + 1 }
  else if item_dict.ecosystem = "maven" then { d1 with Maven := d1.Maven + 1 }
  else if item_dict.ecosystem = "composer" then { d1 with Composer := d1.Composer + 1 }
  else if item_dict.ecosystem = "rust" then { d1 with Rust := d1.Rust + 1 }
  else { d1 with Unknown := d1.Unknown + 1 }

/-- SLO thresholds, in days (`CRIT_MAX_SLO_DAYS` etc. in `get_slo`). -/
def CRIT_MAX_SLO_DAYS : Int := 15

/-- SLO threshold for high severity, in days. -/
def HIGH_MAX_SLO_DAYS : Int := 30

/-- SLO threshold for medium severity, in days. -/
def MED_MAX_SLO_DAYS : Int := 90

/-- SLO threshold for low severity, in days. -/
def LOW_MAX_SLO_DAYS : Int := 180

/-- Age of an alert in whole days: `(current_time - temp_date_obj).days`,
where Python's `timedelta.days` floors towards negative infinity. -/
def ageDays (current_time t : Int) : Int := (current_time - t).fdiv 86400

/-- The `slo` dictionary built by `get_slo`: per-severity counts of open
alerts whose age exceeds the severity's SLO threshold. -/
structure Slo where
  crit_exceeded : Nat
  high_exceeded : Nat
  med_exceeded : Nat
  low_exceeded : Nat
deriving DecidableEq, Repr

/-- The error message `datetime.strptime` raises on unparsable input. -/
def strptimeError : String := "time data does not match format"

/-- The body of `get_slo`'s loop for one alert: open alerts of an exactly
recognised severity have their `published_at` parsed (an unparsable value
raises) and the matching exceeded-counter incremented when the age meets
the threshold inclusively; every other alert leaves the counts unchanged. -/
def sloStep (current_time : Int) (slo : Slo) (item : Alert) : Except String Slo :=
  if item.state = "open" then
    if item.severity = "critical" then
      match item.published_at with
      | none => .error strptimeError
      | some t =>
        .ok (if CRIT_MAX_SLO_DAYS ≤ ageDays current_time t then
              { slo with crit_exceeded := slo.crit_exceeded + 1 } else slo)
    else if item.severity = "high" then
      match item.published_at with
      | none => .error strptimeError
      | some t =>
        .ok (if HIGH_MAX_SLO_DAYS ≤ ageDays current_time t then
              { slo with high_exceeded := slo.high_exceeded + 1 } else slo)
    else if item.severity = "medium" then
      match item.published_at with
      | none => .error strptimeError
      | some t =>
        .ok (if MED_MAX_SLO_DAYS ≤ ageDays current_time t then
              { slo with med_exceeded := slo.med_exceeded + 1 } else slo)
    else if item.severity = "low" then
      match item.published_at with
      | none => .error strptimeError
      | some t =>
        .ok (if LOW_MAX_SLO_DAYS ≤ ageDays current_time t then
              { slo with low_exceeded := slo.low_exceeded + 1 } else slo)
    else .ok slo
  else .ok slo

/-- `Repo.get_slo`: fold `sloStep` over the repository's alert list
starting from the zero `slo` dictionary. -/
def get_slo (repo_dict : List Alert) (current_time : Int) : Except String Slo :=
  List.foldlM (sloStep current_time) ⟨0, 0, 0, 0⟩ repo_dict

/-- The mutable state of `get_state_data`'s main loop: the three per-state
dictionaries and the three timestamp lists they reduce over. -/
structure LoopAcc where
  state_open : StateDict
  date_list_open : List Int
  state_fixed : StateDict
  date_list_fixed : List Int
  state_dismissed : StateDict
  date_list_dismissed : List Int
deriving DecidableEq, Repr

/-- The initial loop state: three copies of `state_template` and three
empty date lists. -/
def initAcc : LoopAcc :=
  { state_open := state_template, date_list_open := [],
    state_fixed := state_template, date_list_fixed := [],
    state_dismissed := state_template, date_list_dismissed := [] }

/-- One iteration of `get_state_data`'s loop: dispatch on `state`, classify
via `parse_data`, parse the state-required timestamp (raising on failure),
append it to the state's date list and store the list's min (open) or max
(fixed/dismissed) as the representative date. -/
def stepState (acc : LoopAcc) (item : Alert) : Except String LoopAcc :=
  if item.state = "open" then
    match item.published_at with
    | none => .error strptimeError
    | some t =>
      let so := parse_data item acc.state_open
      let dl := acc.date_list_open ++ [t]
      .ok { acc with state_open := { so with Date := dl.min? }, date_list_open := dl }
  else if item.state = "fixed" then
    match item.fixed_at with
    | none => .error strptimeError
    | some t =>
      let sf := parse_data item acc.state_fixed
      let dl := acc.date_list_fixed ++ [t]
      .ok { acc with state_fixed := { sf with Date := dl.max? }, date_list_fixed := dl }
  else if item.state = "dismissed" then
    match item.dismissed_at with
    | none => .error strptimeError
    | some t =>
      let sd := parse_data item acc.state_dismissed
      let dl := acc.date_list_dismissed ++ [t]
      .ok { acc with state_dismissed := { sd with Date := dl.max? }, date_list_dismissed := dl }
  else .ok acc

/-- Python's `round(x, 2)`, over `ℚ`: round `x * 100` to an integer and
divide by 100.  (CPython rounds float ties to even; the engine's
percentage values are embedded as exact rationals, where the rounding mode
only matters on exact ties at the fourth decimal.) -/
def pyRound2 (x : ℚ) : ℚ := ((round (x * 100) : ℤ) : ℚ) / 100

/-- The result of `Repo.get_state_data`: the three state dictionaries, the
priority, the SLO exceeded counts and the four SLO percentages. -/
structure Summary where
  state_open : StateDict
  state_fixed : StateDict
  state_dismissed : StateDict
  priority : Nat
  slo : Slo
  crit_percentage : ℚ
  high_percentage : ℚ
  med_percentage : ℚ
  low_percentage : ℚ
deriving DecidableEq, Repr

/-- The tail of `get_state_data` after its loop: priority as open critical
plus open high, and each SLO percentage as `round(exceeded/open*100, 2)`
guarded to `0.0` on a zero open count. -/
def mkSummary (acc : LoopAcc) (slo_info : Slo) : Summary :=
  { state_open := acc.state_open,
    state_fixed := acc.state_fixed,
    state_dismissed := acc.state_dismissed,
    priority := acc.state_open.Crit + acc.state_open.High,
    slo := slo_info,
    crit_percentage :=
      if 0 < acc.state_open.Crit then
        pyRound2 ((slo_info.crit_exceeded : ℚ) / (acc.state_open.Crit : ℚ) * 100)
      else 0,
    high_percentage :=
      if 0 < acc.state_open.High then
        pyRound2 ((slo_info.high_exceeded : ℚ) / (acc.state_open.High : ℚ) * 100)
      else 0,
    med_percentage :=
      if 0 < acc.state_open.Med then
        pyRound2 ((slo_info.med_exceeded : ℚ) / (acc.state_open.Med : ℚ) * 100)
      else 0,
    low_percentage :=
      if 0 < acc.state_open.Low then
        pyRound2 ((slo_info.low_exceeded : ℚ) / (acc.state_open.Low : ℚ) * 100)
      else 0 }

/-- `Repo.get_state_data`: run the classification loop over all alerts
(the first unparsable state-required timestamp raises), then `get_slo`,
then assemble the summary.  The loop runs before `get_slo` is invoked,
exactly as in the source. -/
def get_state_data (repo_dict : List Alert) (current_time : Int) : Except String Summary := do
  let acc ← List.foldlM stepState initAcc repo_dict
  let slo_info ← get_slo repo_dict current_time
  return mkSummary acc slo_info

/-- The organisation rollup dictionary built by `get_org_data`. -/
structure OrgData where
  total_repos : Nat
  repos_with_alerts : Nat
  repos_without_alerts : Nat
  repos_disabled : Nat
  open_total : Nat
  open_crit : Nat
  open_high : Nat
  open_med : Nat
  open_low : Nat
  open_npm : Nat
  open_pip : Nat
  open_rubygems : Nat
  open_nuget : Nat
  open_maven : Nat
  open_composer : Nat
  open_rust : Nat
  open_unknown : Nat
deriving DecidableEq, Repr

/-- One iteration of `get_org_data`'s loop: add one repository summary's
open counters into the rollup. -/
def orgStep (od : OrgData) (s : Summary) : OrgData :=
  { od with
    open_crit := od.open_crit + s.state_open.Crit,
    open_high := od.open_high + s.state_open.High,
    open_med := od.open_med + s.state_open.Med,
    open_low := od.open_low + s.state_open.Low,
    open_npm := od.open_npm + s.state_open.Npm,
    open_pip := od.open_pip + s.state_open.Pip,
    open_rubygems := od.open_rubygems + s.state_open.Rubygems,
    open_nuget := od.open_nuget + s.state_open.Nuget,
    open_maven := od.open_maven + s.state_open.Maven,
    open_composer := od.open_composer + s.state_open.Composer,
    open_rust := od.open_rust + s.state_open.Rust,
    open_unknown := od.open_unknown + s.state_open.Unknown }

/-- `get_org_data`: repository counts from the three name lists, zero open
counters, one additive fold over the summaries, then `Open Total` as the
sum of the four open severity totals. -/
def get_org_data (repos_no_vulns repos_with_vulns repos_disabled : List String)
    (parsed_data : List Summary) : OrgData :=
  let num_no_vulns := repos_no_vulns.length
  let num_with_vulns := repos_with_vulns.length
  let num_disabled := repos_disabled.length
  let total_repos := num_no_vulns + num_with_vulns + num_disabled
  let org_data : OrgData :=
    { total_repos := total_repos,
      repos_with_alerts := num_with_vulns,
      repos_without_alerts := num_no_vulns,
      repos_disabled := num_disabled,
      open_total := 0, open_crit := 0, open_high := 0, open_med := 0,
      open_low := 0, open_npm := 0, open_pip := 0, open_rubygems := 0,
      open_nuget := 0, open_maven := 0, open_composer := 0, open_rust := 0,
      open_unknown := 0 }
  let od := List.foldl orgStep org_data parsed_data
  { od with open_total := od.open_crit + od.open_high + od.open_med + od.open_low }

/-- Insertion step of a stable descending sort on `priority`: a new
element goes in front of the first element whose priority does not exceed
it, hence after every earlier element of strictly greater or equal
priority that was inserted before it. -/
def insertByPriorityDesc (a : Summary) : List Summary → List Summary
  | [] => [a]
  | b :: bs =>
    if b.priority ≤ a.priority then a :: b :: bs
    else b :: insertByPriorityDesc a bs

/-- The ranking step of `main`:
`sorted(parsed_data, key=lambda d: d["Priority"], reverse=True)`.
Python's `sorted` is stable, and with `reverse=True` it is the stable
descending sort by the key; a stable sort by a key is extensionally
unique, so it is embedded as the stable descending insertion sort. -/
def sortByPriorityDesc (l : List Summary) : List Summary :=
  l.foldr insertByPriorityDesc []

/-- `NUM_REPOS_REPORT` in `main`: 5 when at least five summaries exist,
otherwise the number of summaries. -/
def num_repos_report (sorted_data : List Summary) : Nat :=
  if 5 ≤ sorted_data.length then 5 else sorted_data.length

/-- The top-N selection of `main`: the loop
`for number in range(NUM_REPOS_REPORT)` reads exactly the first
`NUM_REPOS_REPORT` entries of the sorted list. -/
def topRepos (sorted_data : List Summary) : List Summary :=
  sorted_data.take (num_repos_report sorted_data)

/-! Normal form of one `parse_data` classification pass.  The two `elif`
chains of `parse_data` are isolated as `sevUpdate` and `ecoUpdate`
(definitionally equal to the corresponding `let`-bound chains of the
source) so that each chain can be analysed by itself. -/

/-- The severity `elif` chain of `parse_data`, applied to the dictionary
whose total was already incremented. -/
def sevUpdate (a : Alert) (d0 : StateDict) : StateDict :=
  if a.severity = "critical" then { d0 with Crit := d0.Crit + 1 }
  else if a.severity = "high" then { d0 with High := d0.High + 1 }
  else if a.severity = "medium" then { d0 with Med := d0.Med + 1 }
  else { d0 with Low := d0.Low + 1 }

/-- The ecosystem `elif` chain of `parse_data`. -/
def ecoUpdate (a : Alert) (d1 : StateDict) : StateDict :=
  if a.ecosystem = "npm" then { d1 with Npm := d1.Npm + 1 }
  else if a.ecosystem = "pip" then { d1 with Pip := d1.Pip + 1 }
  else if a.ecosystem = "rubygems" then { d1 with Rubygems := d1.Rubygems + 1 }
  else if a.ecosystem = "nuget" then { d1 with Nuget := d1.Nuget + 1 }
  else if a.ecosystem = "maven" then { d1 with Maven := d1.Maven + 1 }
  else if a.ecosystem = "composer" then { d1 with Composer := d1.Composer + 1 }
  else if a.ecosystem = "rust" then { d1 with Rust := d1.Rust + 1 }
  else { d1 with Unknown := d1.Unknown + 1 }

/-- Whether the timestamp that the loop parses for this alert's state is
present (`true` for states the loop ignores). -/
def tsOk (item : Alert) : Bool :=
  if item.state = "open" then item.published_at.isSome
  else if item.state = "fixed" then item.fixed_at.isSome
  else if item.state = "dismissed" then item.dismissed_at.isSome
  else true

/-- The pure shadow of `stepState`: identical except that a missing
timestamp is defaulted instead of raising (only ever applied to alerts
with `tsOk`). -/
def stepPure (acc : LoopAcc) (item : Alert) : LoopAcc :=
  if item.state = "open" then
    let t := item.published_at.getD 0
    let so := parse_data item acc.state_open
    let dl := acc.date_list_open ++ [t]
    { acc with state_open := { so with Date := dl.min? }, date_list_open := dl }
  else if item.state = "fixed" then
    let t := item.fixed_at.getD 0
    let sf := parse_data item acc.state_fixed
    let dl := acc.date_list_fixed ++ [t]
    { acc with state_fixed := { sf with Date := dl.max? }, date_list_fixed := dl }
  else if item.state = "dismissed" then
    let t := item.dismissed_at.getD 0
    let sd := parse_data item acc.state_dismissed
    let dl := acc.date_list_dismissed ++ [t]
    { acc with state_dismissed := { sd with Date := dl.max? }, date_list_dismissed := dl }
  else acc

/-- The exact condition under which `get_slo` counts an alert against the
critical SLO: open state, severity exactly critical, and a parseable
published date at least `CRIT_MAX_SLO_DAYS` whole days old. -/
def sloCritExceeded (current_time : Int) (a : Alert) : Bool :=
  a.state == "open" && (a.severity == "critical" &&
    match a.published_at with
    | some t => decide (CRIT_MAX_SLO_DAYS ≤ ageDays current_time t)
    | none => false)

/-- Condition for counting an alert against the high SLO. -/
def sloHighExceeded (current_time : Int) (a : Alert) : Bool :=
  a.state == "open" && (a.severity == "high" &&
    match a.published_at with
    | some t => decide (HIGH_MAX_SLO_DAYS ≤ ageDays current_time t)
    | none => false)

/-- Condition for counting an alert against the medium SLO. -/
def sloMedExceeded (current_time : Int) (a : Alert) : Bool :=
  a.state == "open" && (a.severity == "medium" &&
    match a.published_at with
    | some t => decide (MED_MAX_SLO_DAYS ≤ ageDays current_time t)
    | none => false)

/-- Condition for counting an alert against the low SLO. -/
def sloLowExceeded (current_time : Int) (a : Alert) : Bool :=
  a.state == "open" && (a.severity == "low" &&
    match a.published_at with
    | some t => decide (LOW_MAX_SLO_DAYS ≤ ageDays current_time t)
    | none => false)

/-- Example input: one overdue open critical npm alert, one fresh open
high pip alert and one fixed medium maven alert, with the reference time
at day 100. -/
def exAlerts1 : List Alert :=
  [⟨"open", "critical", "npm", some 6912000, none, none⟩,
   ⟨"open", "high", "pip", some 8208000, none, none⟩,
   ⟨"fixed", "medium", "maven", none, some 8553600, none⟩]

/-- The summary `get_state_data` produces for `exAlerts1` at time
8640000. -/
def exSummary1 : Summary :=
  ⟨⟨2, 1, 1, 0, 0, some 6912000, 1, 1, 0, 0, 0, 0, 0, 0⟩,
   ⟨1, 0, 0, 1, 0, some 8553600, 0, 0, 0, 0, 1, 0, 0, 0⟩,
   state_template, 2, ⟨1, 0, 0, 0⟩,
   pyRound2 (((1 : ℕ) : ℚ) / ((1 : ℕ) : ℚ) * 100),
   pyRound2 (((0 : ℕ) : ℚ) / ((1 : ℕ) : ℚ) * 100),
   0, 0⟩

/-- Example input: a fixed alert that would be far past every SLO
threshold if it were open. -/
def exAlert2b : Alert := ⟨"fixed", "critical", "npm", none, some 0, none⟩

/-- Example input: an open critical alert exactly at the 15-day threshold
plus the old fixed alert. -/
def exAlerts2 : List Alert :=
  [⟨"open", "critical", "npm", some 0, none, none⟩, exAlert2b]

/-- Example input: a single open low rust alert. -/
def exAlerts4 : List Alert := [⟨"open", "low", "rust", some 100, none, none⟩]

/-- The summary `get_state_data` produces for `exAlerts4` at time 0. -/
def exSummary4 : Summary :=
  ⟨⟨1, 0, 0, 0, 1, some 100, 0, 0, 0, 0, 0, 0, 1, 0⟩,
   state_template, state_template, 0, ⟨0, 0, 0, 0⟩, 0, 0, 0,
   pyRound2 (((0 : ℕ) : ℚ) / ((1 : ℕ) : ℚ) * 100)⟩

/-- Example input: a single open critical alert at the threshold. -/
def exAlerts6 : List Alert := [⟨"open", "critical", "npm", some 0, none, none⟩]

/-- The summary `get_state_data` produces for `exAlerts6` at time
1296000. -/
def exSummary6 : Summary :=
  ⟨⟨1, 1, 0, 0, 0, some 0, 1, 0, 0, 0, 0, 0, 0, 0⟩,
   state_template, state_template, 1, ⟨1, 0, 0, 0⟩,
   pyRound2 (((1 : ℕ) : ℚ) / ((1 : ℕ) : ℚ) * 100), 0, 0, 0⟩

/-- Example input: a single fresh open high alert. -/
def exAlerts8 : List Alert := [⟨"open", "high", "pip", some 0, none, none⟩]

/-- The summary `get_state_data` produces for `exAlerts8` at time 0. -/
def exSummary8 : Summary :=
  ⟨⟨1, 0, 1, 0, 0, some 0, 0, 1, 0, 0, 0, 0, 0, 0⟩,
   state_template, state_template, 1, ⟨0, 0, 0, 0⟩, 0,
   pyRound2 (((0 : ℕ) : ℚ) / ((1 : ℕ) : ℚ) * 100), 0, 0⟩

/-- Example input: an open alert whose published date does not parse. -/
def exBadAlert : Alert := ⟨"open", "critical", "npm", none, none, none⟩

/-- Example input: an open alert with the unrecognised severity
`moderate`. -/
def exAlert10 : Alert := ⟨"open", "moderate", "npm", some 0, none, none⟩

/-- Example summary with priority 1 for the ranker and rollup examples. -/
def exRepoA : Summary :=
  ⟨⟨1, 1, 0, 0, 0, none, 1, 0, 0, 0, 0, 0, 0, 0⟩,
   state_template, state_template, 1, ⟨0, 0, 0, 0⟩, 0, 0, 0, 0⟩

/-- Example summary with priority 2 for the ranker and rollup examples. -/
def exRepoB : Summary :=
  ⟨⟨2, 2, 0, 0, 0, none, 0, 2, 0, 0, 0, 0, 0, 0⟩,
   state_template, state_template, 2, ⟨0, 0, 0, 0⟩, 0, 0, 0, 0⟩

/-- `parse_data` is the ecosystem chain after the severity chain after the
total increment, definitionally. -/
theorem parse_data_split (a : Alert) (d : StateDict) :
    parse_data a d = ecoUpdate a (sevUpdate a { d with Total := d.Total + 1 }) := rfl

/-- Closed form of the severity chain. -/
theorem sevUpdate_eq (a : Alert) (d0 : StateDict) :
    sevUpdate a d0 =
      { d0 with
        Crit := d0.Crit + if a.severity = "critical" then 1 else 0,
        High := d0.High + if a.severity = "high" then 1 else 0,
        Med := d0.Med + if a.severity = "medium" then 1 else 0,
        Low := d0.Low +
          if a.severity ≠ "critical" ∧ a.severity ≠ "high" ∧ a.severity ≠ "medium"
          then 1 else 0 } := by
  simp only [sevUpdate]
  repeat' split
  all_goals simp_all

/-- Closed form of the ecosystem chain. -/
theorem ecoUpdate_eq (a : Alert) (d1 : StateDict) :
    ecoUpdate a d1 =
      { d1 with
        Npm := d1.Npm + if a.ecosystem = "npm" then 1 else 0,
        Pip := d1.Pip + if a.ecosystem = "pip" then 1 else 0,
        Rubygems := d1.Rubygems + if a.ecosystem = "rubygems" then 1 else 0,
        Nuget := d1.Nuget + if a.ecosystem = "nuget" then 1 else 0,
        Maven := d1.Maven + if a.ecosystem = "maven" then 1 else 0,
        Composer := d1.Composer + if a.ecosystem = "composer" then 1 else 0,
        Rust := d1.Rust + if a.ecosystem = "rust" then 1 else 0,
        Unknown := d1.Unknown +
          if a.ecosystem ≠ "npm" ∧ a.ecosystem ≠ "pip" ∧ a.ecosystem ≠ "rubygems" ∧
             a.ecosystem ≠ "nuget" ∧ a.ecosystem ≠ "maven" ∧ a.ecosystem ≠ "composer" ∧
             a.ecosystem ≠ "rust"
          then 1 else 0 } := by
  simp only [ecoUpdate]
  repeat' split
  all_goals simp_all

/-- Closed form of `parse_data`: every counter update as a guarded
increment on the input dictionary.  The `elif` chains make the guards of
`Low` and `Unknown` the negations of the named branches. -/
theorem parse_data_eq (a : Alert) (d : StateDict) :
    parse_data a d =
      { d with
        Total := d.Total + 1,
        Crit := d.Crit + if a.severity = "critical" then 1 else 0,
        High := d.High + if a.severity = "high" then 1 else 0,
        Med := d.Med + if a.severity = "medium" then 1 else 0,
        Low := d.Low +
          if a.severity ≠ "critical" ∧ a.severity ≠ "high" ∧ a.severity ≠ "medium"
          then 1 else 0,
        Npm := d.Npm + if a.ecosystem = "npm" then 1 else 0,
        Pip := d.Pip + if a.ecosystem = "pip" then 1 else 0,
        Rubygems := d.Rubygems + if a.ecosystem = "rubygems" then 1 else 0,
        Nuget := d.Nuget + if a.ecosystem = "nuget" then 1 else 0,
        Maven := d.Maven + if a.ecosystem = "maven" then 1 else 0,
        Composer := d.Composer + if a.ecosystem = "composer" then 1 else 0,
        Rust := d.Rust + if a.ecosystem = "rust" then 1 else 0,
        Unknown := d.Unknown +
          if a.ecosystem ≠ "npm" ∧ a.ecosystem ≠ "pip" ∧ a.ecosystem ≠ "rubygems" ∧
             a.ecosystem ≠ "nuget" ∧ a.ecosystem ≠ "maven" ∧ a.ecosystem ≠ "composer" ∧
             a.ecosystem ≠ "rust"
          then 1 else 0 } := by
  rw [parse_data_split, sevUpdate_eq, ecoUpdate_eq]

/-- Severity sub-counts summing to the total is preserved by one
classification pass. -/
theorem parse_data_sev_sum (a : Alert) (d : StateDict)
    (h : d.Crit + d.High + d.Med + d.Low = d.Total) :
    (parse_data a d).Crit + (parse_data a d).High + (parse_data a d).Med +
      (parse_data a d).Low = (parse_data a d).Total := by
  rw [parse_data_eq]
  by_cases h1 : a.severity = "critical" <;> by_cases h2 : a.severity = "high" <;>
    by_cases h3 : a.severity = "medium" <;> simp_all <;> omega

/-- Ecosystem sub-counts summing to the total is preserved by one
classification pass. -/
theorem parse_data_eco_sum (a : Alert) (d : StateDict)
    (h : d.Npm + d.Pip + d.Rubygems + d.Nuget + d.Maven + d.Composer + d.Rust +
          d.Unknown = d.Total) :
    (parse_data a d).Npm + (parse_data a d).Pip + (parse_data a d).Rubygems +
      (parse_data a d).Nuget + (parse_data a d).Maven + (parse_data a d).Composer +
      (parse_data a d).Rust + (parse_data a d).Unknown = (parse_data a d).Total := by
  rw [parse_data_split]
  have hs : sevUpdate a { d with Total := d.Total + 1 } =
      { sevUpdate a { d with Total := d.Total + 1 } with
        Npm := d.Npm, Pip := d.Pip, Rubygems := d.Rubygems, Nuget := d.Nuget,
        Maven := d.Maven, Composer := d.Composer, Rust := d.Rust,
        Unknown := d.Unknown, Total := d.Total + 1 } := by
    rw [sevUpdate_eq]
  rw [hs, ecoUpdate_eq]
  repeat' split
  all_goals simp_all
  all_goals omega

/-- Severity sub-counts of a whole classification fold sum to its total. -/
theorem foldl_parse_sev_sum (l : List Alert) (d : StateDict)
    (h : d.Crit + d.High + d.Med + d.Low = d.Total) :
    (List.foldl (fun d a => parse_data a d) d l).Crit +
      (List.foldl (fun d a => parse_data a d) d l).High +
      (List.foldl (fun d a => parse_data a d) d l).Med +
      (List.foldl (fun d a => parse_data a d) d l).Low =
      (List.foldl (fun d a => parse_data a d) d l).Total := by
  induction l generalizing d with
  | nil => simpa using h
  | cons a l ih => exact ih (parse_data a d) (parse_data_sev_sum a d h)

/-- Ecosystem sub-counts of a whole classification fold sum to its total. -/
theorem foldl_parse_eco_sum (l : List Alert) (d : StateDict)
    (h : d.Npm + d.Pip + d.Rubygems + d.Nuget + d.Maven + d.Composer + d.Rust +
          d.Unknown = d.Total) :
    (List.foldl (fun d a => parse_data a d) d l).Npm +
      (List.foldl (fun d a => parse_data a d) d l).Pip +
      (List.foldl (fun d a => parse_data a d) d l).Rubygems +
      (List.foldl (fun d a => parse_data a d) d l).Nuget +
      (List.foldl (fun d a => parse_data a d) d l).Maven +
      (List.foldl (fun d a => parse_data a d) d l).Composer +
      (List.foldl (fun d a => parse_data a d) d l).Rust +
      (List.foldl (fun d a => parse_data a d) d l).Unknown =
      (List.foldl (fun d a => parse_data a d) d l).Total := by
  induction l generalizing d with
  | nil => simpa using h
  | cons a l ih => exact ih (parse_data a d) (parse_data_eco_sum a d h)

/-- Critical counter of the classification fold, as a count. -/
theorem foldl_parse_Crit (l : List Alert) (d : StateDict) :
    (List.foldl (fun d a => parse_data a d) d l).Crit =
      d.Crit + l.countP (fun a => a.severity == "critical") := by
  induction l generalizing d with
  | nil => simp
  | cons a l ih =>
    rw [List.foldl_cons, ih, List.countP_cons]
    by_cases h : a.severity = "critical" <;> simp [parse_data_eq, h] <;> omega

/-- High counter of the classification fold, as a count. -/
theorem foldl_parse_High (l : List Alert) (d : StateDict) :
    (List.foldl (fun d a => parse_data a d) d l).High =
      d.High + l.countP (fun a => a.severity == "high") := by
  induction l generalizing d with
  | nil => simp
  | cons a l ih =>
    rw [List.foldl_cons, ih, List.countP_cons]
    by_cases h : a.severity = "high" <;> simp [parse_data_eq, h] <;> omega

/-- Medium counter of the classification fold, as a count. -/
theorem foldl_parse_Med (l : List Alert) (d : StateDict) :
    (List.foldl (fun d a => parse_data a d) d l).Med =
      d.Med + l.countP (fun a => a.severity == "medium") := by
  induction l generalizing d with
  | nil => simp
  | cons a l ih =>
    rw [List.foldl_cons, ih, List.countP_cons]
    by_cases h : a.severity = "medium" <;> simp [parse_data_eq, h] <;> omega

/-- Low counter of the classification fold, as a count of the fallback
branch. -/
theorem foldl_parse_Low (l : List Alert) (d : StateDict) :
    (List.foldl (fun d a => parse_data a d) d l).Low =
      d.Low + l.countP (fun a =>
        !(a.severity == "critical") && !(a.severity == "high") &&
          !(a.severity == "medium")) := by
  induction l generalizing d with
  | nil => simp
  | cons a l ih =>
    rw [List.foldl_cons, ih, List.countP_cons]
    by_cases h1 : a.severity = "critical" <;> by_cases h2 : a.severity = "high" <;>
      by_cases h3 : a.severity = "medium" <;> simp_all [parse_data_eq] <;> omega

/-- The classification pass never touches the representative date. -/
theorem parse_data_Date (a : Alert) (d : StateDict) :
    (parse_data a d).Date = d.Date := by
  simp [parse_data_eq]

/-! Elimination of the `Except` effects of `get_state_data`'s loop: the
loop succeeds exactly when every state-required timestamp parses, and on
success it computes the same value as the pure fold `stepPure`. -/

/-- A successful loop iteration implies the timestamp was present and the
result is the pure step. -/
theorem stepState_ok_elim {acc acc1 : LoopAcc} {a : Alert}
    (h : stepState acc a = Except.ok acc1) :
    tsOk a = true ∧ acc1 = stepPure acc a := by
  unfold stepState at h
  split at h
  · split at h
    · simp at h
    · simp only [Except.ok.injEq] at h
      subst h
      simp_all [tsOk, stepPure]
  · split at h
    · split at h
      · simp at h
      · simp only [Except.ok.injEq] at h
        subst h
        simp_all [tsOk, stepPure]
    · split at h
      · split at h
        · simp at h
        · simp only [Except.ok.injEq] at h
          subst h
          simp_all [tsOk, stepPure]
      · simp only [Except.ok.injEq] at h
        subst h
        simp_all [tsOk, stepPure]

/-- An iteration on an alert whose required timestamp is present succeeds
with the pure step's value. -/
theorem stepState_ok_of_tsOk {acc : LoopAcc} {a : Alert} (h : tsOk a = true) :
    stepState acc a = Except.ok (stepPure acc a) := by
  unfold stepState stepPure
  split
  · rename_i ho
    cases hp : a.published_at with
    | none => simp [tsOk, ho, hp] at h
    | some t => rfl
  · rename_i ho
    split
    · rename_i hf
      cases hp : a.fixed_at with
      | none => simp [tsOk, ho, hf, hp] at h
      | some t => rfl
    · rename_i hf
      split
      · rename_i hd
        cases hp : a.dismissed_at with
        | none => simp [tsOk, ho, hf, hd, hp] at h
        | some t => rfl
      · rfl

/-- An iteration on an alert whose required timestamp is missing raises
the `strptime` error. -/
theorem stepState_error {acc : LoopAcc} {a : Alert} (h : tsOk a = false) :
    stepState acc a = Except.error strptimeError := by
  unfold stepState
  split
  · rename_i ho
    cases hp : a.published_at with
    | none => rfl
    | some t => simp [tsOk, ho, hp] at h
  · rename_i ho
    split
    · rename_i hf
      cases hp : a.fixed_at with
      | none => rfl
      | some t => simp [tsOk, ho, hf, hp] at h
    · rename_i hf
      split
      · rename_i hd
        cases hp : a.dismissed_at with
        | none => rfl
        | some t => simp [tsOk, ho, hf, hd, hp] at h
      · rename_i hd
        simp [tsOk, ho, hf, hd] at h

/-- A successful loop run implies every required timestamp was present and
the result is the pure fold. -/
theorem foldlM_stepState_ok {l : List Alert} {acc acc2 : LoopAcc}
    (h : List.foldlM stepState acc l = Except.ok acc2) :
    (∀ a ∈ l, tsOk a = true) ∧ acc2 = List.foldl stepPure acc l := by
  induction l generalizing acc with
  | nil =>
    simp only [List.foldlM_nil] at h
    replace h : (Except.ok acc : Except String LoopAcc) = Except.ok acc2 := h
    simp only [Except.ok.injEq] at h
    subst h
    simp
  | cons a l ih =>
    rw [List.foldlM_cons] at h
    cases hs : stepState acc a with
    | error e =>
      rw [hs] at h
      replace h : (Except.error e : Except String LoopAcc) = Except.ok acc2 := h
      simp at h
    | ok acc1 =>
      rw [hs] at h
      replace h : List.foldlM stepState acc1 l = Except.ok acc2 := h
      obtain ⟨hts, hacc⟩ := ih h
      obtain ⟨hta, hpure⟩ := stepState_ok_elim hs
      refine ⟨?_, ?_⟩
      · intro b hb
        rcases List.mem_cons.mp hb with rfl | hb
        · exact hta
        · exact hts b hb
      · rw [List.foldl_cons, ← hpure]
        exact hacc

/-- A missing required timestamp anywhere in the list makes the loop raise
the `strptime` error. -/
theorem foldlM_stepState_error {l : List Alert} {acc : LoopAcc}
    (h : ∃ a ∈ l, tsOk a = false) :
    List.foldlM stepState acc l = Except.error strptimeError := by
  induction l generalizing acc with
  | nil => simp at h
  | cons a l ih =>
    rw [List.foldlM_cons]
    by_cases ha : tsOk a = false
    · rw [stepState_error ha]
      rfl
    · have ha2 : tsOk a = true := by revert ha; cases tsOk a <;> simp
      obtain ⟨b, hb, hbf⟩ := h
      rcases List.mem_cons.mp hb with rfl | hbl
      · exact absurd hbf ha
      · rw [stepState_ok_of_tsOk ha2]
        exact ih ⟨b, hbl, hbf⟩

/-- Elimination for a successful `get_state_data`: both the loop and
`get_slo` succeeded, and the summary is assembled from their results. -/
theorem get_state_data_ok_elim {repo_dict : List Alert} {current_time : Int}
    {s : Summary} (h : get_state_data repo_dict current_time = Except.ok s) :
    ∃ acc slo_info, List.foldlM stepState initAcc repo_dict = Except.ok acc ∧
      get_slo repo_dict current_time = Except.ok slo_info ∧
      s = mkSummary acc slo_info := by
  unfold get_state_data at h
  cases hacc : List.foldlM stepState initAcc repo_dict with
  | error e =>
    rw [hacc] at h
    replace h : (Except.error e : Except String Summary) = Except.ok s := h
    simp at h
  | ok acc =>
    rw [hacc] at h
    replace h : (get_slo repo_dict current_time >>= fun slo_info =>
        pure (mkSummary acc slo_info)) = Except.ok s := h
    cases hslo : get_slo repo_dict current_time with
    | error e =>
      rw [hslo] at h
      replace h : (Except.error e : Except String Summary) = Except.ok s := h
      simp at h
    | ok slo_info =>
      rw [hslo] at h
      replace h : (Except.ok (mkSummary acc slo_info) : Except String Summary) =
        Except.ok s := h
      simp only [Except.ok.injEq] at h
      exact ⟨acc, slo_info, rfl, rfl, h.symm⟩

/-- A failing loop makes the whole of `get_state_data` fail. -/
theorem get_state_data_error {repo_dict : List Alert} (current_time : Int)
    (h : List.foldlM stepState initAcc repo_dict = Except.error strptimeError) :
    get_state_data repo_dict current_time = Except.error strptimeError := by
  unfold get_state_data
  rw [h]
  rfl

/-! Characterisation of the pure fold: counters come from classifying the
state's sub-list, the date list collects the state's timestamps in order,
and the representative date is the min (open) or max (fixed/dismissed) of
that list. -/

/-- The classification pass commutes with overwriting the date. -/
theorem parse_data_setDate (a : Alert) (d : StateDict) (v : Option Int) :
    parse_data a { d with Date := v } = { parse_data a d with Date := v } := by
  rw [parse_data_eq, parse_data_eq]

/-- The classification fold commutes with overwriting the date. -/
theorem foldl_parse_setDate (l : List Alert) (d : StateDict) (v : Option Int) :
    List.foldl (fun d a => parse_data a d) { d with Date := v } l =
      { List.foldl (fun d a => parse_data a d) d l with Date := v } := by
  induction l generalizing d with
  | nil => rfl
  | cons a l ih => rw [List.foldl_cons, List.foldl_cons, parse_data_setDate, ih]

/-- A non-open alert leaves the open components of the loop state alone. -/
theorem stepPure_open_untouched (acc : LoopAcc) {a : Alert}
    (h : ¬ a.state = "open") :
    (stepPure acc a).state_open = acc.state_open ∧
      (stepPure acc a).date_list_open = acc.date_list_open := by
  simp only [stepPure]
  repeat' split
  all_goals simp_all

/-- A non-fixed alert leaves the fixed components of the loop state alone. -/
theorem stepPure_fixed_untouched (acc : LoopAcc) {a : Alert}
    (h : ¬ a.state = "fixed") :
    (stepPure acc a).state_fixed = acc.state_fixed ∧
      (stepPure acc a).date_list_fixed = acc.date_list_fixed := by
  simp only [stepPure]
  repeat' split
  all_goals simp_all

/-- A non-dismissed alert leaves the dismissed components of the loop
state alone. -/
theorem stepPure_dismissed_untouched (acc : LoopAcc) {a : Alert}
    (h : ¬ a.state = "dismissed") :
    (stepPure acc a).state_dismissed = acc.state_dismissed ∧
      (stepPure acc a).date_list_dismissed = acc.date_list_dismissed := by
  simp only [stepPure]
  repeat' split
  all_goals simp_all

/-- Open components of the pure fold: the date list appends the open
alerts' published timestamps in order, and the open dictionary is the
classification fold over the open sub-list with the date list's minimum
as representative date. -/
theorem foldl_stepPure_open (l : List Alert) (acc : LoopAcc) :
    (List.foldl stepPure acc l).date_list_open =
      acc.date_list_open ++
        (l.filter (fun a => a.state == "open")).map (fun a => a.published_at.getD 0) ∧
    (List.foldl stepPure acc l).state_open =
      { List.foldl (fun d a => parse_data a d) acc.state_open
          (l.filter (fun a => a.state == "open")) with
        Date :=
          if l.filter (fun a => a.state == "open") = [] then acc.state_open.Date
          else (acc.date_list_open ++
            (l.filter (fun a => a.state == "open")).map
              (fun a => a.published_at.getD 0)).min? } := by
  induction l generalizing acc with
  | nil => simp
  | cons a l ih =>
    rw [List.foldl_cons]
    by_cases ho : a.state = "open"
    · have hstep : stepPure acc a =
          { acc with
            state_open := { parse_data a acc.state_open with
              Date := (acc.date_list_open ++ [a.published_at.getD 0]).min? },
            date_list_open := acc.date_list_open ++ [a.published_at.getD 0] } := by
        simp [stepPure, ho]
      rw [hstep]
      obtain ⟨ih1, ih2⟩ := ih
        { acc with
          state_open := { parse_data a acc.state_open with
            Date := (acc.date_list_open ++ [a.published_at.getD 0]).min? },
          date_list_open := acc.date_list_open ++ [a.published_at.getD 0] }
      refine ⟨?_, ?_⟩
      · rw [ih1]
        simp [ho, List.filter_cons, List.append_assoc]
      · rw [ih2]
        simp only [foldl_parse_setDate]
        by_cases he : l.filter (fun a => a.state == "open") = [] <;>
          simp [ho, he, List.filter_cons, List.append_assoc]
    · obtain ⟨hso, hdo⟩ := stepPure_open_untouched acc ho
      obtain ⟨ih1, ih2⟩ := ih (stepPure acc a)
      rw [ih1, ih2, hso, hdo]
      simp [ho, List.filter_cons]

/-- Fixed components of the pure fold: timestamps in order and the
classification fold over the fixed sub-list, with the date list's maximum
as representative date. -/
theorem foldl_stepPure_fixed (l : List Alert) (acc : LoopAcc) :
    (List.foldl stepPure acc l).date_list_fixed =
      acc.date_list_fixed ++
        (l.filter (fun a => a.state == "fixed")).map (fun a => a.fixed_at.getD 0) ∧
    (List.foldl stepPure acc l).state_fixed =
      { List.foldl (fun d a => parse_data a d) acc.state_fixed
          (l.filter (fun a => a.state == "fixed")) with
        Date :=
          if l.filter (fun a => a.state == "fixed") = [] then acc.state_fixed.Date
          else (acc.date_list_fixed ++
            (l.filter (fun a => a.state == "fixed")).map
              (fun a => a.fixed_at.getD 0)).max? } := by
  induction l generalizing acc with
  | nil => simp
  | cons a l ih =>
    rw [List.foldl_cons]
    by_cases hf : a.state = "fixed"
    · have hstep : stepPure acc a =
          { acc with
            state_fixed := { parse_data a acc.state_fixed with
              Date := (acc.date_list_fixed ++ [a.fixed_at.getD 0]).max? },
            date_list_fixed := acc.date_list_fixed ++ [a.fixed_at.getD 0] } := by
        simp [stepPure, hf]
      rw [hstep]
      obtain ⟨ih1, ih2⟩ := ih
        { acc with
          state_fixed := { parse_data a acc.state_fixed with
            Date := (acc.date_list_fixed ++ [a.fixed_at.getD 0]).max? },
          date_list_fixed := acc.date_list_fixed ++ [a.fixed_at.getD 0] }
      refine ⟨?_, ?_⟩
      · rw [ih1]
        simp [hf, List.filter_cons, List.append_assoc]
      · rw [ih2]
        simp only [foldl_parse_setDate]
        by_cases he : l.filter (fun a => a.state == "fixed") = [] <;>
          simp [hf, he, List.filter_cons, List.append_assoc]
    · obtain ⟨hsf, hdf⟩ := stepPure_fixed_untouched acc hf
      obtain ⟨ih1, ih2⟩ := ih (stepPure acc a)
      rw [ih1, ih2, hsf, hdf]
      simp [hf, List.filter_cons]

/-- Dismissed components of the pure fold: timestamps in order and the
classification fold over the dismissed sub-list, with the date list's
maximum as representative date. -/
theorem foldl_stepPure_dismissed (l : List Alert) (acc : LoopAcc) :
    (List.foldl stepPure acc l).date_list_dismissed =
      acc.date_list_dismissed ++
        (l.filter (fun a => a.state == "dismissed")).map (fun a => a.dismissed_at.getD 0) ∧
    (List.foldl stepPure acc l).state_dismissed =
      { List.foldl (fun d a => parse_data a d) acc.state_dismissed
          (l.filter (fun a => a.state == "dismissed")) with
        Date :=
          if l.filter (fun a => a.state == "dismissed") = [] then acc.state_dismissed.Date
          else (acc.date_list_dismissed ++
            (l.filter (fun a => a.state == "dismissed")).map
              (fun a => a.dismissed_at.getD 0)).max? } := by
  induction l generalizing acc with
  | nil => simp
  | cons a l ih =>
    rw [List.foldl_cons]
    by_cases hd : a.state = "dismissed"
    · have hstep : stepPure acc a =
          { acc with
            state_dismissed := { parse_data a acc.state_dismissed with
              Date := (acc.date_list_dismissed ++ [a.dismissed_at.getD 0]).max? },
            date_list_dismissed := acc.date_list_dismissed ++ [a.dismissed_at.getD 0] } := by
        simp [stepPure, hd]
      rw [hstep]
      obtain ⟨ih1, ih2⟩ := ih
        { acc with
          state_dismissed := { parse_data a acc.state_dismissed with
            Date := (acc.date_list_dismissed ++ [a.dismissed_at.getD 0]).max? },
          date_list_dismissed := acc.date_list_dismissed ++ [a.dismissed_at.getD 0] }
      refine ⟨?_, ?_⟩
      · rw [ih1]
        simp [hd, List.filter_cons, List.append_assoc]
      · rw [ih2]
        simp only [foldl_parse_setDate]
        by_cases he : l.filter (fun a => a.state == "dismissed") = [] <;>
          simp [hd, he, List.filter_cons, List.append_assoc]
    · obtain ⟨hsd, hdd⟩ := stepPure_dismissed_untouched acc hd
      obtain ⟨ih1, ih2⟩ := ih (stepPure acc a)
      rw [ih1, ih2, hsd, hdd]
      simp [hd, List.filter_cons]

/-! Characterisation of `get_slo` as per-severity counts. -/

/-- A successful `get_slo` iteration adds exactly the four indicator
values for this alert. -/
theorem sloStep_ok_elim {current_time : Int} {s0 s1 : Slo} {a : Alert}
    (h : sloStep current_time s0 a = Except.ok s1) :
    s1.crit_exceeded = s0.crit_exceeded +
        (if sloCritExceeded current_time a then 1 else 0) ∧
    s1.high_exceeded = s0.high_exceeded +
        (if sloHighExceeded current_time a then 1 else 0) ∧
    s1.med_exceeded = s0.med_exceeded +
        (if sloMedExceeded current_time a then 1 else 0) ∧
    s1.low_exceeded = s0.low_exceeded +
        (if sloLowExceeded current_time a then 1 else 0) := by
  unfold sloStep at h
  repeat' split at h
  all_goals
    first
      | exact Except.noConfusion h
      | (injection h with h; subst h;
         simp_all [sloCritExceeded, sloHighExceeded, sloMedExceeded, sloLowExceeded])

/-- A successful `get_slo` run counts, per severity, exactly the alerts
satisfying the corresponding exceeded condition. -/
theorem foldlM_sloStep_ok {l : List Alert} {current_time : Int} {s0 s : Slo}
    (h : List.foldlM (sloStep current_time) s0 l = Except.ok s) :
    s.crit_exceeded = s0.crit_exceeded + l.countP (sloCritExceeded current_time) ∧
    s.high_exceeded = s0.high_exceeded + l.countP (sloHighExceeded current_time) ∧
    s.med_exceeded = s0.med_exceeded + l.countP (sloMedExceeded current_time) ∧
    s.low_exceeded = s0.low_exceeded + l.countP (sloLowExceeded current_time) := by
  induction l generalizing s0 with
  | nil =>
    simp only [List.foldlM_nil] at h
    replace h : (Except.ok s0 : Except String Slo) = Except.ok s := h
    injection h with h
    subst h
    simp
  | cons a l ih =>
    rw [List.foldlM_cons] at h
    cases hs : sloStep current_time s0 a with
    | error e =>
      rw [hs] at h
      replace h : (Except.error e : Except String Slo) = Except.ok s := h
      simp at h
    | ok s1 =>
      rw [hs] at h
      replace h : List.foldlM (sloStep current_time) s1 l = Except.ok s := h
      obtain ⟨i1, i2, i3, i4⟩ := ih h
      obtain ⟨j1, j2, j3, j4⟩ := sloStep_ok_elim hs
      refine ⟨?_, ?_, ?_, ?_⟩ <;> simp [List.countP_cons, i1, i2, i3, i4, j1, j2, j3, j4] <;> omega

/-- An alert that is not open never changes the SLO counts, whatever the
reference time. -/
theorem sloStep_not_open {current_time : Int} {s0 : Slo} {a : Alert}
    (h : ¬ a.state = "open") : sloStep current_time s0 a = Except.ok s0 := by
  simp [sloStep, h]

/-! Characterisation of `get_org_data`. -/

/-- The additive fold of `get_org_data` adds, fieldwise, the sum of each
open counter over the summaries. -/
theorem foldl_orgStep (l : List Summary) (od : OrgData) :
    List.foldl orgStep od l =
      { od with
        open_crit := od.open_crit + (l.map (fun s => s.state_open.Crit)).sum,
        open_high := od.open_high + (l.map (fun s => s.state_open.High)).sum,
        open_med := od.open_med + (l.map (fun s => s.state_open.Med)).sum,
        open_low := od.open_low + (l.map (fun s => s.state_open.Low)).sum,
        open_npm := od.open_npm + (l.map (fun s => s.state_open.Npm)).sum,
        open_pip := od.open_pip + (l.map (fun s => s.state_open.Pip)).sum,
        open_rubygems := od.open_rubygems + (l.map (fun s => s.state_open.Rubygems)).sum,
        open_nuget := od.open_nuget + (l.map (fun s => s.state_open.Nuget)).sum,
        open_maven := od.open_maven + (l.map (fun s => s.state_open.Maven)).sum,
        open_composer := od.open_composer + (l.map (fun s => s.state_open.Composer)).sum,
        open_rust := od.open_rust + (l.map (fun s => s.state_open.Rust)).sum,
        open_unknown := od.open_unknown + (l.map (fun s => s.state_open.Unknown)).sum } := by
  induction l generalizing od with
  | nil => simp
  | cons s l ih =>
    rw [List.foldl_cons, ih]
    simp [orgStep, Nat.add_assoc]

/-- Closed form of `get_org_data`: repository counts from the lengths of
the three name lists, each open counter the sum of that counter over all
summaries, and the open total the sum of the four severity sums. -/
theorem get_org_data_eq (repos_no_vulns repos_with_vulns repos_disabled : List String)
    (l : List Summary) :
    get_org_data repos_no_vulns repos_with_vulns repos_disabled l =
      { total_repos := repos_no_vulns.length + repos_with_vulns.length +
          repos_disabled.length,
        repos_with_alerts := repos_with_vulns.length,
        repos_without_alerts := repos_no_vulns.length,
        repos_disabled := repos_disabled.length,
        open_total := (l.map (fun s => s.state_open.Crit)).sum +
          (l.map (fun s => s.state_open.High)).sum +
          (l.map (fun s => s.state_open.Med)).sum +
          (l.map (fun s => s.state_open.Low)).sum,
        open_crit := (l.map (fun s => s.state_open.Crit)).sum,
        open_high := (l.map (fun s => s.state_open.High)).sum,
        open_med := (l.map (fun s => s.state_open.Med)).sum,
        open_low := (l.map (fun s => s.state_open.Low)).sum,
        open_npm := (l.map (fun s => s.state_open.Npm)).sum,
        open_pip := (l.map (fun s => s.state_open.Pip)).sum,
        open_rubygems := (l.map (fun s => s.state_open.Rubygems)).sum,
        open_nuget := (l.map (fun s => s.state_open.Nuget)).sum,
        open_maven := (l.map (fun s => s.state_open.Maven)).sum,
        open_composer := (l.map (fun s => s.state_open.Composer)).sum,
        open_rust := (l.map (fun s => s.state_open.Rust)).sum,
        open_unknown := (l.map (fun s => s.state_open.Unknown)).sum } := by
  simp only [get_org_data]
  rw [foldl_orgStep]
  simp

/-! Ranker: permutation, sortedness and stability of the stable descending
insertion sort, embedding Python's `sorted(..., reverse=True)`. -/

/-- Inserting permutes: the result is the element consed on the input. -/
theorem insertByPriorityDesc_perm (a : Summary) (l : List Summary) :
    (insertByPriorityDesc a l).Perm (a :: l) := by
  induction l with
  | nil => exact List.Perm.refl _
  | cons b bs ih =>
    unfold insertByPriorityDesc
    split
    · exact List.Perm.refl _
    · exact (ih.cons b).trans (List.Perm.swap a b bs)

/-- The ranker permutes its input. -/
theorem sortByPriorityDesc_perm (l : List Summary) :
    (sortByPriorityDesc l).Perm l := by
  induction l with
  | nil => exact List.Perm.refl _
  | cons a l ih =>
    exact (insertByPriorityDesc_perm a (sortByPriorityDesc l)).trans (ih.cons a)

/-- Inserting preserves descending sortedness on priority. -/
theorem insertByPriorityDesc_sorted {a : Summary} {l : List Summary}
    (h : l.Pairwise (fun x y => y.priority ≤ x.priority)) :
    (insertByPriorityDesc a l).Pairwise (fun x y => y.priority ≤ x.priority) := by
  induction l with
  | nil => simp [insertByPriorityDesc]
  | cons b bs ih =>
    rw [List.pairwise_cons] at h
    obtain ⟨hb, hbs⟩ := h
    unfold insertByPriorityDesc
    split
    · rename_i hba
      refine List.Pairwise.cons ?_ (List.Pairwise.cons hb hbs)
      intro x hx
      rcases List.mem_cons.mp hx with rfl | hx
      · exact hba
      · exact le_trans (hb x hx) hba
    · rename_i hba
      refine List.Pairwise.cons ?_ (ih hbs)
      intro x hx
      rcases List.mem_cons.mp ((insertByPriorityDesc_perm a bs).mem_iff.mp hx) with rfl | hx2
      · exact le_of_lt (Nat.lt_of_not_le hba)
      · exact hb x hx2

/-- The ranker's output is sorted by priority, descending. -/
theorem sortByPriorityDesc_sorted (l : List Summary) :
    (sortByPriorityDesc l).Pairwise (fun x y => y.priority ≤ x.priority) := by
  induction l with
  | nil => simp [sortByPriorityDesc]
  | cons a l ih => exact insertByPriorityDesc_sorted ih

/-- Stability of the insertion step: the sub-sequence of any fixed
priority is unchanged. -/
theorem insertByPriorityDesc_filter (a : Summary) (l : List Summary) (p : Nat) :
    (insertByPriorityDesc a l).filter (fun s => s.priority == p) =
      ((a :: l).filter (fun s => s.priority == p)) := by
  induction l with
  | nil => rfl
  | cons b bs ih =>
    unfold insertByPriorityDesc
    split
    · rfl
    · rename_i hba
      by_cases hb : b.priority = p <;> by_cases ha : a.priority = p
      · exact absurd (le_of_eq (hb.trans ha.symm)) hba
      · simp [List.filter_cons, ih, hb, ha]
      · simp [List.filter_cons, ih, hb, ha]
      · simp [List.filter_cons, ih, hb, ha]

/-- Stability of the ranker: for every priority value, the summaries of
that priority appear in their original relative order. -/
theorem sortByPriorityDesc_filter (l : List Summary) (p : Nat) :
    (sortByPriorityDesc l).filter (fun s => s.priority == p) =
      l.filter (fun s => s.priority == p) := by
  induction l with
  | nil => rfl
  | cons a l ih =>
    show (insertByPriorityDesc a (sortByPriorityDesc l)).filter _ = _
    rw [insertByPriorityDesc_filter]
    simp [List.filter_cons, ih]

/-! Bounds for the rounded percentage. -/

/-- `pyRound2` keeps values of `[0, 100]` inside `[0, 100]`. -/
theorem pyRound2_bounds {x : ℚ} (h0 : 0 ≤ x) (h1 : x ≤ 100) :
    0 ≤ pyRound2 x ∧ pyRound2 x ≤ 100 := by
  unfold pyRound2
  rw [round_eq]
  have hf1 : (0 : ℤ) ≤ ⌊x * 100 + 1 / 2⌋ := by
    apply Int.floor_nonneg.mpr
    linarith
  have hf2 : ((⌊x * 100 + 1 / 2⌋ : ℤ) : ℚ) ≤ x * 100 + 1 / 2 := Int.floor_le _
  have hf3 : ⌊x * 100 + 1 / 2⌋ ≤ 10000 := by
    have hq : ((⌊x * 100 + 1 / 2⌋ : ℤ) : ℚ) < 10001 := by linarith
    have hz : ⌊x * 100 + 1 / 2⌋ < 10001 := by exact_mod_cast hq
    omega
  constructor
  · apply div_nonneg _ (by norm_num)
    exact_mod_cast hf1
  · rw [div_le_iff₀ (by norm_num)]
    have : ((⌊x * 100 + 1 / 2⌋ : ℤ) : ℚ) ≤ 10000 := by exact_mod_cast hf3
    linarith

/-- A guarded exceeded-over-open ratio scaled to a percentage lies in
`[0, 100]`. -/
theorem ratio_bounds {e o : Nat} (he : e ≤ o) (ho : 0 < o) :
    0 ≤ (e : ℚ) / (o : ℚ) * 100 ∧ (e : ℚ) / (o : ℚ) * 100 ≤ 100 := by
  have hoq : (0 : ℚ) < (o : ℚ) := by exact_mod_cast ho
  have heq : (e : ℚ) ≤ (o : ℚ) := by exact_mod_cast he
  constructor
  · positivity
  · rw [div_mul_eq_mul_div, div_le_iff₀ hoq]
    nlinarith

/-- A list whose every image under `f` is `some` filter-maps to the same
list as mapping with a default. -/
theorem filterMap_eq_map_getD {α β : Type} (l : List α) (f : α → Option β) (d : β)
    (h : ∀ a ∈ l, (f a).isSome) : l.filterMap f = l.map (fun a => (f a).getD d) := by
  induction l with
  | nil => rfl
  | cons a l ih =>
    rw [List.filterMap_cons, List.map_cons]
    cases hf : f a with
    | none => exact absurd (h a (by simp)) (by simp [hf])
    | some b => rw [ih (fun x hx => h x (by simp [hx]))]; simp [hf]

/-- Open severity counters and SLO counts of a successful summary, as
counts over the input alert list. -/
theorem summary_open_counts {repo_dict : List Alert} {current_time : Int} {s : Summary}
    (h : get_state_data repo_dict current_time = Except.ok s) :
    s.state_open.Crit =
      repo_dict.countP (fun a => a.severity == "critical" && a.state == "open") ∧
    s.state_open.High =
      repo_dict.countP (fun a => a.severity == "high" && a.state == "open") ∧
    s.state_open.Med =
      repo_dict.countP (fun a => a.severity == "medium" && a.state == "open") ∧
    s.state_open.Low =
      repo_dict.countP (fun a =>
        (!(a.severity == "critical") && !(a.severity == "high") &&
          !(a.severity == "medium")) && a.state == "open") ∧
    s.slo.crit_exceeded = repo_dict.countP (sloCritExceeded current_time) ∧
    s.slo.high_exceeded = repo_dict.countP (sloHighExceeded current_time) ∧
    s.slo.med_exceeded = repo_dict.countP (sloMedExceeded current_time) ∧
    s.slo.low_exceeded = repo_dict.countP (sloLowExceeded current_time) := by
  obtain ⟨acc, slo_info, hacc, hslo, hs⟩ := get_state_data_ok_elim h
  obtain ⟨hts, hpure⟩ := foldlM_stepState_ok hacc
  obtain ⟨hc, hh, hm, hl⟩ := foldlM_sloStep_ok hslo
  obtain ⟨hdl, hso⟩ := foldl_stepPure_open repo_dict initAcc
  subst hs
  subst hpure
  refine ⟨?_, ?_, ?_, ?_, ?_, ?_, ?_, ?_⟩
  · simp only [mkSummary]
    rw [hso]
    simp [foldl_parse_Crit, List.countP_filter, initAcc, state_template]
  · simp only [mkSummary]
    rw [hso]
    simp [foldl_parse_High, List.countP_filter, initAcc, state_template]
  · simp only [mkSummary]
    rw [hso]
    simp [foldl_parse_Med, List.countP_filter, initAcc, state_template]
  · simp only [mkSummary]
    rw [hso]
    simp [foldl_parse_Low, List.countP_filter, initAcc, state_template]
  · simpa [mkSummary] using hc
  · simpa [mkSummary] using hh
  · simpa [mkSummary] using hm
  · simpa [mkSummary] using hl

/-- Each SLO exceeded count of a successful summary is bounded by the
matching open severity counter. -/
theorem summary_slo_le {repo_dict : List Alert} {current_time : Int} {s : Summary}
    (h : get_state_data repo_dict current_time = Except.ok s) :
    s.slo.crit_exceeded ≤ s.state_open.Crit ∧
    s.slo.high_exceeded ≤ s.state_open.High ∧
    s.slo.med_exceeded ≤ s.state_open.Med ∧
    s.slo.low_exceeded ≤ s.state_open.Low := by
  obtain ⟨c1, c2, c3, c4, s1, s2, s3, s4⟩ := summary_open_counts h
  refine ⟨?_, ?_, ?_, ?_⟩
  · rw [s1, c1]
    refine List.countP_mono_left ?_
    intro a _ hp
    simp only [sloCritExceeded, Bool.and_eq_true, beq_iff_eq] at hp
    simp [hp.1, hp.2.1]
  · rw [s2, c2]
    refine List.countP_mono_left ?_
    intro a _ hp
    simp only [sloHighExceeded, Bool.and_eq_true, beq_iff_eq] at hp
    simp [hp.1, hp.2.1]
  · rw [s3, c3]
    refine List.countP_mono_left ?_
    intro a _ hp
    simp only [sloMedExceeded, Bool.and_eq_true, beq_iff_eq] at hp
    simp [hp.1, hp.2.1]
  · rw [s4, c4]
    refine List.countP_mono_left ?_
    intro a _ hp
    simp only [sloLowExceeded, Bool.and_eq_true, beq_iff_eq] at hp
    simp [hp.1, hp.2.1]

/-! The specification claims. -/

/-- Claim C1: every summary that `get_state_data` produces satisfies the
full invariant: counters are non-negative (they are naturals by
construction; the totals are restated as integers), in each of the three
states the four severity counters and the eight ecosystem counters sum to
that state's total, each SLO exceeded count is bounded by the matching
open severity counter, and the priority is non-negative. -/
theorem repoSummary_invariants {repo_dict : List Alert} {current_time : Int}
    {s : Summary} (h : get_state_data repo_dict current_time = Except.ok s) :
    (0 : ℤ) ≤ (s.state_open.Total : ℤ) ∧
    (0 : ℤ) ≤ (s.state_fixed.Total : ℤ) ∧
    (0 : ℤ) ≤ (s.state_dismissed.Total : ℤ) ∧
    s.state_open.Crit + s.state_open.High + s.state_open.Med + s.state_open.Low =
      s.state_open.Total ∧
    s.state_fixed.Crit + s.state_fixed.High + s.state_fixed.Med + s.state_fixed.Low =
      s.state_fixed.Total ∧
    s.state_dismissed.Crit + s.state_dismissed.High + s.state_dismissed.Med +
      s.state_dismissed.Low = s.state_dismissed.Total ∧
    s.state_open.Npm + s.state_open.Pip + s.state_open.Rubygems + s.state_open.Nuget +
      s.state_open.Maven + s.state_open.Composer + s.state_open.Rust +
      s.state_open.Unknown = s.state_open.Total ∧
    s.state_fixed.Npm + s.state_fixed.Pip + s.state_fixed.Rubygems + s.state_fixed.Nuget +
      s.state_fixed.Maven + s.state_fixed.Composer + s.state_fixed.Rust +
      s.state_fixed.Unknown = s.state_fixed.Total ∧
    s.state_dismissed.Npm + s.state_dismissed.Pip + s.state_dismissed.Rubygems +
      s.state_dismissed.Nuget + s.state_dismissed.Maven + s.state_dismissed.Composer +
      s.state_dismissed.Rust + s.state_dismissed.Unknown = s.state_dismissed.Total ∧
    s.slo.crit_exceeded ≤ s.state_open.Crit ∧
    s.slo.high_exceeded ≤ s.state_open.High ∧
    s.slo.med_exceeded ≤ s.state_open.Med ∧
    s.slo.low_exceeded ≤ s.state_open.Low ∧
    (0 : ℤ) ≤ (s.priority : ℤ) := by
  obtain ⟨hle1, hle2, hle3, hle4⟩ := summary_slo_le h
  obtain ⟨acc, slo_info, hacc, hslo, hs⟩ := get_state_data_ok_elim h
  obtain ⟨hts, hpure⟩ := foldlM_stepState_ok hacc
  obtain ⟨hdlo, hso⟩ := foldl_stepPure_open repo_dict initAcc
  obtain ⟨hdlf, hsf⟩ := foldl_stepPure_fixed repo_dict initAcc
  obtain ⟨hdld, hsd⟩ := foldl_stepPure_dismissed repo_dict initAcc
  subst hs
  subst hpure
  refine ⟨by positivity, by positivity, by positivity, ?_, ?_, ?_, ?_, ?_, ?_,
    hle1, hle2, hle3, hle4, by positivity⟩
  · simp only [mkSummary]
    rw [hso]
    simpa [initAcc] using
      foldl_parse_sev_sum (repo_dict.filter (fun a => a.state == "open"))
        state_template rfl
  · simp only [mkSummary]
    rw [hsf]
    simpa [initAcc] using
      foldl_parse_sev_sum (repo_dict.filter (fun a => a.state == "fixed"))
        state_template rfl
  · simp only [mkSummary]
    rw [hsd]
    simpa [initAcc] using
      foldl_parse_sev_sum (repo_dict.filter (fun a => a.state == "dismissed"))
        state_template rfl
  · simp only [mkSummary]
    rw [hso]
    simpa [initAcc] using
      foldl_parse_eco_sum (repo_dict.filter (fun a => a.state == "open"))
        state_template rfl
  · simp only [mkSummary]
    rw [hsf]
    simpa [initAcc] using
      foldl_parse_eco_sum (repo_dict.filter (fun a => a.state == "fixed"))
        state_template rfl
  · simp only [mkSummary]
    rw [hsd]
    simpa [initAcc] using
      foldl_parse_eco_sum (repo_dict.filter (fun a => a.state == "dismissed"))
        state_template rfl

/-- Claim C2: a successful SLO evaluation counts, per severity, exactly
the open alerts of that exact severity whose age in whole days meets the
severity's threshold inclusively (15/30/90/180 days), and an alert whose
state is not open never changes the counts, regardless of its age. -/
theorem slo_only_open_inclusive {repo_dict : List Alert} {current_time : Int}
    {s : Slo} (b : Alert) (slo0 : Slo) (hb : ¬ b.state = "open")
    (h : get_slo repo_dict current_time = Except.ok s) :
    s.crit_exceeded = repo_dict.countP (sloCritExceeded current_time) ∧
    s.high_exceeded = repo_dict.countP (sloHighExceeded current_time) ∧
    s.med_exceeded = repo_dict.countP (sloMedExceeded current_time) ∧
    s.low_exceeded = repo_dict.countP (sloLowExceeded current_time) ∧
    sloStep current_time slo0 b = Except.ok slo0 := by
  obtain ⟨h1, h2, h3, h4⟩ := foldlM_sloStep_ok h
  exact ⟨by simpa using h1, by simpa using h2, by simpa using h3, by simpa using h4,
    sloStep_not_open hb⟩

/-- Claim C3: one classification pass increments the total exactly once,
increments the critical/high/medium counter exactly on an exact severity
match with the low counter as the fallback for every other severity,
and increments the matching named ecosystem counter exactly on an exact
match with unknown as the fallback; it is a total function, so no input
raises. -/
theorem classifier_dispatch (a : Alert) (d : StateDict) :
    (parse_data a d).Total = d.Total + 1 ∧
    (parse_data a d).Crit = d.Crit + (if a.severity = "critical" then 1 else 0) ∧
    (parse_data a d).High = d.High + (if a.severity = "high" then 1 else 0) ∧
    (parse_data a d).Med = d.Med + (if a.severity = "medium" then 1 else 0) ∧
    (parse_data a d).Low = d.Low +
      (if a.severity ≠ "critical" ∧ a.severity ≠ "high" ∧ a.severity ≠ "medium"
        then 1 else 0) ∧
    (parse_data a d).Npm = d.Npm + (if a.ecosystem = "npm" then 1 else 0) ∧
    (parse_data a d).Pip = d.Pip + (if a.ecosystem = "pip" then 1 else 0) ∧
    (parse_data a d).Rubygems = d.Rubygems +
      (if a.ecosystem = "rubygems" then 1 else 0) ∧
    (parse_data a d).Nuget = d.Nuget + (if a.ecosystem = "nuget" then 1 else 0) ∧
    (parse_data a d).Maven = d.Maven + (if a.ecosystem = "maven" then 1 else 0) ∧
    (parse_data a d).Composer = d.Composer +
      (if a.ecosystem = "composer" then 1 else 0) ∧
    (parse_data a d).Rust = d.Rust + (if a.ecosystem = "rust" then 1 else 0) ∧
    (parse_data a d).Unknown = d.Unknown +
      (if a.ecosystem ≠ "npm" ∧ a.ecosystem ≠ "pip" ∧ a.ecosystem ≠ "rubygems" ∧
          a.ecosystem ≠ "nuget" ∧ a.ecosystem ≠ "maven" ∧ a.ecosystem ≠ "composer" ∧
          a.ecosystem ≠ "rust"
        then 1 else 0) := by
  simp [parse_data_eq]

/-- Claim C4: on a successful summary the open representative date is the
minimum published date over the open alerts, the fixed and dismissed ones
are the maxima of the respective resolution dates, and an empty state
group yields the zero-filled template with no minimum or maximum taken
(its date stays the empty initial value). -/
theorem representative_dates {repo_dict : List Alert} {current_time : Int}
    {s : Summary} (h : get_state_data repo_dict current_time = Except.ok s) :
    s.state_open.Date =
      ((repo_dict.filter (fun a => a.state == "open")).filterMap
        (fun a => a.published_at)).min? ∧
    s.state_fixed.Date =
      ((repo_dict.filter (fun a => a.state == "fixed")).filterMap
        (fun a => a.fixed_at)).max? ∧
    s.state_dismissed.Date =
      ((repo_dict.filter (fun a => a.state == "dismissed")).filterMap
        (fun a => a.dismissed_at)).max? ∧
    (repo_dict.filter (fun a => a.state == "open") = [] →
      s.state_open = state_template) ∧
    (repo_dict.filter (fun a => a.state == "fixed") = [] →
      s.state_fixed = state_template) ∧
    (repo_dict.filter (fun a => a.state == "dismissed") = [] →
      s.state_dismissed = state_template) := by
  obtain ⟨acc, slo_info, hacc, hslo, hs⟩ := get_state_data_ok_elim h
  obtain ⟨hts, hpure⟩ := foldlM_stepState_ok hacc
  obtain ⟨hdlo, hso⟩ := foldl_stepPure_open repo_dict initAcc
  obtain ⟨hdlf, hsf⟩ := foldl_stepPure_fixed repo_dict initAcc
  obtain ⟨hdld, hsd⟩ := foldl_stepPure_dismissed repo_dict initAcc
  subst hs
  subst hpure
  have hbo : (repo_dict.filter (fun a => a.state == "open")).filterMap
      (fun a => a.published_at) =
      (repo_dict.filter (fun a => a.state == "open")).map
        (fun a => a.published_at.getD 0) := by
    apply filterMap_eq_map_getD
    intro a ha
    have hmem := List.mem_filter.mp ha
    have htk := hts a hmem.1
    simp only [tsOk] at htk
    rwa [if_pos (by simpa using hmem.2)] at htk
  have hbf : (repo_dict.filter (fun a => a.state == "fixed")).filterMap
      (fun a => a.fixed_at) =
      (repo_dict.filter (fun a => a.state == "fixed")).map
        (fun a => a.fixed_at.getD 0) := by
    apply filterMap_eq_map_getD
    intro a ha
    have hmem := List.mem_filter.mp ha
    have htk := hts a hmem.1
    have hfx : a.state = "fixed" := by simpa using hmem.2
    simp only [tsOk] at htk
    rw [if_neg (by simp [hfx]), if_pos hfx] at htk
    exact htk
  have hbd : (repo_dict.filter (fun a => a.state == "dismissed")).filterMap
      (fun a => a.dismissed_at) =
      (repo_dict.filter (fun a => a.state == "dismissed")).map
        (fun a => a.dismissed_at.getD 0) := by
    apply filterMap_eq_map_getD
    intro a ha
    have hmem := List.mem_filter.mp ha
    have htk := hts a hmem.1
    have hds : a.state = "dismissed" := by simpa using hmem.2
    simp only [tsOk] at htk
    rw [if_neg (by simp [hds]), if_neg (by simp [hds]), if_pos hds] at htk
    exact htk
  refine ⟨?_, ?_, ?_, ?_, ?_, ?_⟩
  · simp only [mkSummary]
    rw [hso, hbo]
    by_cases he : repo_dict.filter (fun a => a.state == "open") = [] <;>
      simp [he, initAcc, state_template]
  · simp only [mkSummary]
    rw [hsf, hbf]
    by_cases he : repo_dict.filter (fun a => a.state == "fixed") = [] <;>
      simp [he, initAcc, state_template]
  · simp only [mkSummary]
    rw [hsd, hbd]
    by_cases he : repo_dict.filter (fun a => a.state == "dismissed") = [] <;>
      simp [he, initAcc, state_template]
  · intro he
    simp only [mkSummary]
    rw [hso]
    simp [he, initAcc, state_template]
  · intro he
    simp only [mkSummary]
    rw [hsf]
    simp [he, initAcc, state_template]
  · intro he
    simp only [mkSummary]
    rw [hsd]
    simp [he, initAcc, state_template]

/-- Permuting the summaries leaves `get_org_data` unchanged. -/
theorem get_org_data_perm (repos_no_vulns repos_with_vulns repos_disabled : List String)
    {l l2 : List Summary} (hperm : l.Perm l2) :
    get_org_data repos_no_vulns repos_with_vulns repos_disabled l2 =
      get_org_data repos_no_vulns repos_with_vulns repos_disabled l := by
  rw [get_org_data_eq, get_org_data_eq]
  have h1 := ((hperm.map (fun s => s.state_open.Crit)).sum_eq)
  have h2 := ((hperm.map (fun s => s.state_open.High)).sum_eq)
  have h3 := ((hperm.map (fun s => s.state_open.Med)).sum_eq)
  have h4 := ((hperm.map (fun s => s.state_open.Low)).sum_eq)
  have h5 := ((hperm.map (fun s => s.state_open.Npm)).sum_eq)
  have h6 := ((hperm.map (fun s => s.state_open.Pip)).sum_eq)
  have h7 := ((hperm.map (fun s => s.state_open.Rubygems)).sum_eq)
  have h8 := ((hperm.map (fun s => s.state_open.Nuget)).sum_eq)
  have h9 := ((hperm.map (fun s => s.state_open.Maven)).sum_eq)
  have h10 := ((hperm.map (fun s => s.state_open.Composer)).sum_eq)
  have h11 := ((hperm.map (fun s => s.state_open.Rust)).sum_eq)
  have h12 := ((hperm.map (fun s => s.state_open.Unknown)).sum_eq)
  rw [← h1, ← h2, ← h3, ← h4, ← h5, ← h6, ← h7, ← h8, ← h9, ← h10, ← h11, ← h12]

/-- Claim C5: every open counter of the organisation rollup is the sum of
that counter over the summaries (each contributing exactly once), the open
total is the sum of the four severity sums, the rollup is invariant under
permuting the summaries, and the total repository count is the sum of the
with-alerts, without-alerts and disabled counts. -/
theorem org_rollup (repos_no_vulns repos_with_vulns repos_disabled : List String)
    (l l2 : List Summary) (hperm : l.Perm l2) :
    (get_org_data repos_no_vulns repos_with_vulns repos_disabled l).open_crit =
      (l.map (fun s => s.state_open.Crit)).sum ∧
    (get_org_data repos_no_vulns repos_with_vulns repos_disabled l).open_high =
      (l.map (fun s => s.state_open.High)).sum ∧
    (get_org_data repos_no_vulns repos_with_vulns repos_disabled l).open_med =
      (l.map (fun s => s.state_open.Med)).sum ∧
    (get_org_data repos_no_vulns repos_with_vulns repos_disabled l).open_low =
      (l.map (fun s => s.state_open.Low)).sum ∧
    (get_org_data repos_no_vulns repos_with_vulns repos_disabled l).open_npm =
      (l.map (fun s => s.state_open.Npm)).sum ∧
    (get_org_data repos_no_vulns repos_with_vulns repos_disabled l).open_pip =
      (l.map (fun s => s.state_open.Pip)).sum ∧
    (get_org_data repos_no_vulns repos_with_vulns repos_disabled l).open_rubygems =
      (l.map (fun s => s.state_open.Rubygems)).sum ∧
    (get_org_data repos_no_vulns repos_with_vulns repos_disabled l).open_nuget =
      (l.map (fun s => s.state_open.Nuget)).sum ∧
    (get_org_data repos_no_vulns repos_with_vulns repos_disabled l).open_maven =
      (l.map (fun s => s.state_open.Maven)).sum ∧
    (get_org_data repos_no_vulns repos_with_vulns repos_disabled l).open_composer =
      (l.map (fun s => s.state_open.Composer)).sum ∧
    (get_org_data repos_no_vulns repos_with_vulns repos_disabled l).open_rust =
      (l.map (fun s => s.state_open.Rust)).sum ∧
    (get_org_data repos_no_vulns repos_with_vulns repos_disabled l).open_unknown =
      (l.map (fun s => s.state_open.Unknown)).sum ∧
    (get_org_data repos_no_vulns repos_with_vulns repos_disabled l).open_total =
      (get_org_data repos_no_vulns repos_with_vulns repos_disabled l).open_crit +
      (get_org_data repos_no_vulns repos_with_vulns repos_disabled l).open_high +
      (get_org_data repos_no_vulns repos_with_vulns repos_disabled l).open_med +
      (get_org_data repos_no_vulns repos_with_vulns repos_disabled l).open_low ∧
    get_org_data repos_no_vulns repos_with_vulns repos_disabled l2 =
      get_org_data repos_no_vulns repos_with_vulns repos_disabled l ∧
    (get_org_data repos_no_vulns repos_with_vulns repos_disabled l).total_repos =
      (get_org_data repos_no_vulns repos_with_vulns repos_disabled l).repos_with_alerts +
      (get_org_data repos_no_vulns repos_with_vulns repos_disabled l).repos_without_alerts +
      (get_org_data repos_no_vulns repos_with_vulns repos_disabled l).repos_disabled := by
  refine ⟨?_, ?_, ?_, ?_, ?_, ?_, ?_, ?_, ?_, ?_, ?_, ?_, ?_,
    get_org_data_perm repos_no_vulns repos_with_vulns repos_disabled hperm, ?_⟩ <;>
    rw [get_org_data_eq] <;> simp <;> omega

/-- Claim C6: each SLO percentage of a successful summary is the rounded
`exceeded/open*100` when the open severity counter is positive and `0.0`
otherwise (the zero denominator is guarded, never divided by), and every
percentage lies in `[0, 100]`. -/
theorem slo_percentage_spec {repo_dict : List Alert} {current_time : Int}
    {s : Summary} (h : get_state_data repo_dict current_time = Except.ok s) :
    (s.crit_percentage = if 0 < s.state_open.Crit then
      pyRound2 ((s.slo.crit_exceeded : ℚ) / (s.state_open.Crit : ℚ) * 100) else 0) ∧
    (s.high_percentage = if 0 < s.state_open.High then
      pyRound2 ((s.slo.high_exceeded : ℚ) / (s.state_open.High : ℚ) * 100) else 0) ∧
    (s.med_percentage = if 0 < s.state_open.Med then
      pyRound2 ((s.slo.med_exceeded : ℚ) / (s.state_open.Med : ℚ) * 100) else 0) ∧
    (s.low_percentage = if 0 < s.state_open.Low then
      pyRound2 ((s.slo.low_exceeded : ℚ) / (s.state_open.Low : ℚ) * 100) else 0) ∧
    (0 ≤ s.crit_percentage ∧ s.crit_percentage ≤ 100) ∧
    (0 ≤ s.high_percentage ∧ s.high_percentage ≤ 100) ∧
    (0 ≤ s.med_percentage ∧ s.med_percentage ≤ 100) ∧
    (0 ≤ s.low_percentage ∧ s.low_percentage ≤ 100) := by
  obtain ⟨hle1, hle2, hle3, hle4⟩ := summary_slo_le h
  obtain ⟨acc, slo_info, hacc, hslo, hs⟩ := get_state_data_ok_elim h
  have hf1 : s.crit_percentage = if 0 < s.state_open.Crit then
      pyRound2 ((s.slo.crit_exceeded : ℚ) / (s.state_open.Crit : ℚ) * 100) else 0 := by
    subst hs; simp [mkSummary]
  have hf2 : s.high_percentage = if 0 < s.state_open.High then
      pyRound2 ((s.slo.high_exceeded : ℚ) / (s.state_open.High : ℚ) * 100) else 0 := by
    subst hs; simp [mkSummary]
  have hf3 : s.med_percentage = if 0 < s.state_open.Med then
      pyRound2 ((s.slo.med_exceeded : ℚ) / (s.state_open.Med : ℚ) * 100) else 0 := by
    subst hs; simp [mkSummary]
  have hf4 : s.low_percentage = if 0 < s.state_open.Low then
      pyRound2 ((s.slo.low_exceeded : ℚ) / (s.state_open.Low : ℚ) * 100) else 0 := by
    subst hs; simp [mkSummary]
  refine ⟨hf1, hf2, hf3, hf4, ?_, ?_, ?_, ?_⟩
  · rw [hf1]
    by_cases h0 : 0 < s.state_open.Crit
    · rw [if_pos h0]
      exact pyRound2_bounds (ratio_bounds hle1 h0).1 (ratio_bounds hle1 h0).2
    · rw [if_neg h0]
      norm_num
  · rw [hf2]
    by_cases h0 : 0 < s.state_open.High
    · rw [if_pos h0]
      exact pyRound2_bounds (ratio_bounds hle2 h0).1 (ratio_bounds hle2 h0).2
    · rw [if_neg h0]
      norm_num
  · rw [hf3]
    by_cases h0 : 0 < s.state_open.Med
    · rw [if_pos h0]
      exact pyRound2_bounds (ratio_bounds hle3 h0).1 (ratio_bounds hle3 h0).2
    · rw [if_neg h0]
      norm_num
  · rw [hf4]
    by_cases h0 : 0 < s.state_open.Low
    · rw [if_pos h0]
      exact pyRound2_bounds (ratio_bounds hle4 h0).1 (ratio_bounds hle4 h0).2
    · rw [if_neg h0]
      norm_num

/-- Claim C7: the ranker orders summaries by priority descending, is a
permutation of its input, preserves the relative order of equal-priority
summaries (stability), and the top-N selection returns exactly
`min 5 (number of summaries)` entries forming a prefix of the ranked
order, never indexing past the available summaries. -/
theorem ranker_spec (l : List Summary) :
    (sortByPriorityDesc l).Pairwise (fun x y => y.priority ≤ x.priority) ∧
    (sortByPriorityDesc l).Perm l ∧
    (∀ p, (sortByPriorityDesc l).filter (fun s => s.priority == p) =
      l.filter (fun s => s.priority == p)) ∧
    (topRepos (sortByPriorityDesc l)).length = min 5 l.length ∧
    topRepos (sortByPriorityDesc l) ++
      (sortByPriorityDesc l).drop (num_repos_report (sortByPriorityDesc l)) =
      sortByPriorityDesc l := by
  refine ⟨sortByPriorityDesc_sorted l, sortByPriorityDesc_perm l,
    fun p => sortByPriorityDesc_filter l p, ?_, List.take_append_drop _ _⟩
  have hlen : (sortByPriorityDesc l).length = l.length :=
    (sortByPriorityDesc_perm l).length_eq
  rw [topRepos, List.length_take, num_repos_report, hlen]
  by_cases h5 : 5 ≤ l.length
  · simp [h5]
  · simp only [if_neg h5]
    omega

/-- Claim C8: the priority of a successful summary equals open critical
plus open high, and is therefore non-negative. -/
theorem priority_def {repo_dict : List Alert} {current_time : Int} {s : Summary}
    (h : get_state_data repo_dict current_time = Except.ok s) :
    s.priority = s.state_open.Crit + s.state_open.High ∧ (0 : ℤ) ≤ (s.priority : ℤ) := by
  obtain ⟨acc, slo_info, hacc, hslo, hs⟩ := get_state_data_ok_elim h
  subst hs
  exact ⟨by simp [mkSummary], by positivity⟩

/-- Claim C9: an alert whose state-required timestamp is missing makes the
whole of `get_state_data` fail with the parse error; no summary is ever
produced with a defaulted date. -/
theorem malformed_timestamp {repo_dict : List Alert} {current_time : Int}
    (h : ∃ a ∈ repo_dict,
      (a.state = "open" ∧ a.published_at = none) ∨
      (a.state = "fixed" ∧ a.fixed_at = none) ∨
      (a.state = "dismissed" ∧ a.dismissed_at = none)) :
    get_state_data repo_dict current_time = Except.error strptimeError ∧
    ∀ s, ¬ get_state_data repo_dict current_time = Except.ok s := by
  have hbad : ∃ a ∈ repo_dict, tsOk a = false := by
    obtain ⟨a, ha, hcase⟩ := h
    refine ⟨a, ha, ?_⟩
    rcases hcase with ⟨h1, h2⟩ | ⟨h1, h2⟩ | ⟨h1, h2⟩ <;> simp [tsOk, h1, h2]
  have herr := get_state_data_error current_time (foldlM_stepState_error hbad)
  refine ⟨herr, fun s hs => ?_⟩
  rw [herr] at hs
  exact Except.noConfusion hs

/-- Claim C10: an open alert with an unrecognised severity is classified
into the low counter, yet never changes any SLO exceeded count, whatever
the reference time — prepending it to any alert list leaves `get_slo`
unchanged. -/
theorem fallback_no_slo (a : Alert) (d : StateDict) (current_time : Int)
    (slo0 : Slo) (alerts : List Alert) (h1 : a.state = "open")
    (h2 : a.severity ≠ "critical") (h3 : a.severity ≠ "high")
    (h4 : a.severity ≠ "medium") (h5 : a.severity ≠ "low") :
    (parse_data a d).Low = d.Low + 1 ∧
    sloStep current_time slo0 a = Except.ok slo0 ∧
    get_slo (a :: alerts) current_time = get_slo alerts current_time := by
  refine ⟨?_, ?_, ?_⟩
  · simp [parse_data_eq, h2, h3, h4]
  · simp [sloStep, h1, h2, h3, h4, h5]
  · show List.foldlM (sloStep current_time) ⟨0, 0, 0, 0⟩ (a :: alerts) = _
    rw [List.foldlM_cons]
    have hstep0 : sloStep current_time ⟨0, 0, 0, 0⟩ a = Except.ok ⟨0, 0, 0, 0⟩ := by
      simp [sloStep, h1, h2, h3, h4, h5]
    rw [hstep0]
    rfl

/-! Concrete witnesses: each claim theorem with a hypothesis evaluated at
an explicit input. -/

/-- Witness for claim C1: the three-alert example aggregates successfully
and its summary satisfies the severity-sum and SLO-bound invariants. -/
theorem repoSummary_invariants_witness :
    get_state_data exAlerts1 8640000 = Except.ok exSummary1 ∧
    exSummary1.state_open.Crit + exSummary1.state_open.High + exSummary1.state_open.Med +
      exSummary1.state_open.Low = exSummary1.state_open.Total ∧
    exSummary1.slo.crit_exceeded ≤ exSummary1.state_open.Crit :=
  ⟨rfl,
   (repoSummary_invariants
     (rfl : get_state_data exAlerts1 8640000 = Except.ok exSummary1)).2.2.2.1,
   (repoSummary_invariants
     (rfl : get_state_data exAlerts1 8640000 = Except.ok exSummary1)).2.2.2.2.2.2.2.2.2.1⟩

/-- Witness for claim C2: an alert exactly at the 15-day threshold counts
(inclusive comparison), the count matches the exceeded condition, and the
fixed alert contributes nothing however old it is. -/
theorem slo_only_open_inclusive_witness :
    get_slo exAlerts2 1296000 = Except.ok ⟨1, 0, 0, 0⟩ ∧
    (Slo.mk 1 0 0 0).crit_exceeded = exAlerts2.countP (sloCritExceeded 1296000) ∧
    sloStep 1296000 (Slo.mk 5 5 5 5) exAlert2b = Except.ok (Slo.mk 5 5 5 5) :=
  ⟨rfl,
   (slo_only_open_inclusive exAlert2b ⟨5, 5, 5, 5⟩ (by decide)
     (rfl : get_slo exAlerts2 1296000 = Except.ok ⟨1, 0, 0, 0⟩)).1,
   (slo_only_open_inclusive exAlert2b ⟨5, 5, 5, 5⟩ (by decide)
     (rfl : get_slo exAlerts2 1296000 = Except.ok ⟨1, 0, 0, 0⟩)).2.2.2.2⟩

/-- Witness for claim C4: the single-open-alert example aggregates
successfully, its open date is the minimum published date, and its empty
fixed group is the zero template. -/
theorem representative_dates_witness :
    get_state_data exAlerts4 0 = Except.ok exSummary4 ∧
    exSummary4.state_open.Date =
      ((exAlerts4.filter (fun a => a.state == "open")).filterMap
        (fun a => a.published_at)).min? ∧
    exSummary4.state_fixed = state_template :=
  ⟨rfl,
   (representative_dates
     (rfl : get_state_data exAlerts4 0 = Except.ok exSummary4)).1,
   (representative_dates
     (rfl : get_state_data exAlerts4 0 = Except.ok exSummary4)).2.2.2.2.1 rfl⟩

/-- Witness for claim C5: for a two-summary organisation, the rollup's
open critical counter is the sum over the summaries, and swapping the
summaries leaves the rollup unchanged. -/
theorem org_rollup_witness :
    ([exRepoA, exRepoB] : List Summary).Perm [exRepoB, exRepoA] ∧
    (get_org_data [] ["r1", "r2"] [] [exRepoA, exRepoB]).open_crit =
      (([exRepoA, exRepoB] : List Summary).map (fun s => s.state_open.Crit)).sum ∧
    get_org_data [] ["r1", "r2"] [] [exRepoB, exRepoA] =
      get_org_data [] ["r1", "r2"] [] [exRepoA, exRepoB] :=
  ⟨List.Perm.swap exRepoB exRepoA [],
   (org_rollup [] ["r1", "r2"] [] [exRepoA, exRepoB] [exRepoB, exRepoA]
     (List.Perm.swap exRepoB exRepoA [])).1,
   (org_rollup [] ["r1", "r2"] [] [exRepoA, exRepoB] [exRepoB, exRepoA]
     (List.Perm.swap exRepoB exRepoA [])).2.2.2.2.2.2.2.2.2.2.2.2.2.1⟩

/-- Witness for claim C6: the all-exceeded single-alert example aggregates
successfully and its critical percentage lies in `[0, 100]`. -/
theorem slo_percentage_spec_witness :
    get_state_data exAlerts6 1296000 = Except.ok exSummary6 ∧
    0 ≤ exSummary6.crit_percentage ∧ exSummary6.crit_percentage ≤ 100 :=
  ⟨rfl,
   ((slo_percentage_spec
     (rfl : get_state_data exAlerts6 1296000 = Except.ok exSummary6)).2.2.2.2.1).1,
   ((slo_percentage_spec
     (rfl : get_state_data exAlerts6 1296000 = Except.ok exSummary6)).2.2.2.2.1).2⟩

/-- Witness for claim C8: the single-high-alert example aggregates
successfully and its priority is open critical plus open high. -/
theorem priority_def_witness :
    get_state_data exAlerts8 0 = Except.ok exSummary8 ∧
    exSummary8.priority = exSummary8.state_open.Crit + exSummary8.state_open.High :=
  ⟨rfl,
   (priority_def (rfl : get_state_data exAlerts8 0 = Except.ok exSummary8)).1⟩

/-- Witness for claim C9: an open alert with an unparsable published date
makes `get_state_data` fail with the parse error. -/
theorem malformed_timestamp_witness :
    (exBadAlert.state = "open" ∧ exBadAlert.published_at = none) ∧
    get_state_data [exBadAlert] 0 = Except.error strptimeError :=
  ⟨by decide, (malformed_timestamp (by decide)).1⟩

/-- Witness for claim C10: the `moderate`-severity open alert lands in the
low counter, leaves the SLO step unchanged and drops out of `get_slo`. -/
theorem fallback_no_slo_witness :
    (parse_data exAlert10 state_template).Low = state_template.Low + 1 ∧
    sloStep 99999999 ⟨0, 0, 0, 0⟩ exAlert10 = Except.ok ⟨0, 0, 0, 0⟩ ∧
    get_slo [exAlert10] 99999999 = get_slo [] 99999999 :=
  fallback_no_slo exAlert10 state_template 99999999 ⟨0, 0, 0, 0⟩ [] rfl
    (by decide) (by decide) (by decide) (by decide)

end Dependabot
